import Mathlib

/-!
Verification of the ALSA-client core of a2jmidi (src/alsa_client.cpp,
src/alsa_client.h) against its natural-language specification.

The development shallowly embeds the C++ source: pure helper functions become
Lean functions on strings (modelled as lists of characters), the global mutable
session variables become an explicit `ClientState` record threaded through the
operations, and calls into the external ALSA sequencer service are modelled by
explicit environment records carrying the answers the service would give.
-/

namespace AlsaClient

/-- NULL_ID from alsa_client.h: the sentinel identifier value -1. -/
def NULL_ID : Int := -1

/-- PortID from alsa_client.h: an immutable pair of client number and port
number, compared structurally. -/
structure PortID where
  client : Int
  port : Int
deriving DecidableEq, Repr

/-- NULL_PORT_ID from alsa_client.h: the sentinel PortID (-1, -1). -/
def NULL_PORT_ID : PortID := ⟨NULL_ID, NULL_ID⟩

/-- PortCaps from alsa_client.h: an unsigned bitmask of port capabilities. -/
abbrev PortCaps := Nat

/-- Value of the ALSA constant SND_SEQ_PORT_CAP_READ. -/
def SND_SEQ_PORT_CAP_READ : PortCaps := 1

/-- Value of the ALSA constant SND_SEQ_PORT_CAP_SUBS_READ. -/
def SND_SEQ_PORT_CAP_SUBS_READ : PortCaps := 32

/-- Value of the ALSA constant SND_SEQ_PORT_CAP_WRITE. -/
def SND_SEQ_PORT_CAP_WRITE : PortCaps := 2

/-- Value of the ALSA constant SND_SEQ_PORT_CAP_SUBS_WRITE. -/
def SND_SEQ_PORT_CAP_SUBS_WRITE : PortCaps := 64

/-- PortProfile from alsa_client.h: the result of parsing a port-designation
string.  The std::stringstream errorMessage is modelled as a String. -/
structure PortProfile where
  hasError : Bool := false
  errorMessage : String := ""
  caps : PortCaps := SND_SEQ_PORT_CAP_READ ||| SND_SEQ_PORT_CAP_SUBS_READ
  hasColon : Bool := false
  firstInt : Int := NULL_ID
  firstName : String := ""
  secondInt : Int := NULL_ID
  secondName : String := ""
deriving DecidableEq, Repr

/-- Modelled from the spec: the constant SENDER_PORT used by tryToConnect is
defined in alsa_util.h, which is not part of the sources at hand.  The spec
describes the searched counterpart as a readable, subscribable sender port, so
the mask is the readable and subscription-readable capability bits (also the
default mask of PortProfile in alsa_client.h). -/
def SENDER_PORT : PortCaps := SND_SEQ_PORT_CAP_READ ||| SND_SEQ_PORT_CAP_SUBS_READ

/-- Characters matched by the C++ regular-expression class backslash-s (and by
std::isspace in the default locale, as used by std::stoi). -/
def isCppSpace (c : Char) : Bool :=
  c = ' ' || c = '\t' || c = '\n' || c = '\x0d' || c = '\x0c' || c = '\x0b'

/-- Characters of the class [a-zA-Z0-9] used by normalizedIdentifier. -/
def isAsciiAlnum (c : Char) : Bool :=
  ('a' ≤ c && c ≤ 'z') || ('A' ≤ c && c ≤ 'Z') || ('0' ≤ c && c ≤ '9')

/-- normalizedIdentifier from alsa_client.cpp: first every whitespace
character is removed, then every remaining character outside [a-zA-Z0-9] is
replaced by an underscore.  Characters model the bytes the C++ code operates
on; all inputs of interest are ASCII where the two notions agree. -/
def normalizedIdentifier (identifier : String) : String :=
  String.mk (((identifier.data.filter (fun c => !isCppSpace c)).map
    (fun c => if isAsciiAlnum c then c else '_')))

/-- Value of a run of decimal digits, most significant first. -/
def digitRunValue (ds : List Char) : Nat :=
  ds.foldl (fun acc c => acc * 10 + (c.toNat - Char.toNat '0')) 0

/-- Semantics of std::stoi as invoked by identifierStrToInt: skip leading
whitespace, accept one optional sign, then require at least one decimal digit;
the value is that of the maximal leading digit run (trailing characters are
ignored).  none models a thrown std::invalid_argument (no digits) or
std::out_of_range (value outside the int range). -/
def stoiResult (s : List Char) : Option Int :=
  let afterSpace := s.dropWhile isCppSpace
  let sign : Int := if afterSpace.head? = some '-' then -1 else 1
  let rest :=
    if afterSpace.head? = some '-' ∨ afterSpace.head? = some '+' then
      afterSpace.tail
    else afterSpace
  let digits := rest.takeWhile Char.isDigit
  if digits.isEmpty then none
  else
    let v : Int := sign * (digitRunValue digits : Int)
    if v < -(2 ^ 31) ∨ 2 ^ 31 ≤ v then none else some v

/-- identifierStrToInt from alsa_client.cpp: std::stoi on the identifier,
with every exception mapped to NULL_ID. -/
def identifierStrToInt (identifier : String) : Int :=
  (stoiResult identifier.data).getD NULL_ID

/-- Splits a character list at its first colon, if any: the regex scan
underlying the two toProfile patterns.  Returns the part before the first
colon (colon-free by construction) and the part after it. -/
def splitAtFirstColon : List Char → Option (List Char × List Char)
  | [] => none
  | c :: rest =>
    if c = ':' then some ([], rest)
    else
      match splitAtFirstColon rest with
      | none => none
      | some (a, b) => some (c :: a, b)

/-- toProfile from alsa_client.cpp.  The regex caret [caret]([^:]+):([^:]+)$
matches exactly when the designation splits at its first colon into two
non-empty parts with no further colon; the regex [caret][^:]+$ matches exactly
when the designation is non-empty and colon-free. -/
def toProfile (caps : PortCaps) (designation : String) : PortProfile :=
  if designation.data.isEmpty then
    { hasError := true
      errorMessage := "Port-Identifier seems to be empty."
      caps := caps }
  else
    match splitAtFirstColon designation.data with
    | some (a, b) =>
      if a ≠ [] ∧ b ≠ [] ∧ ¬ b.contains ':' then
        let firstName := normalizedIdentifier (String.mk a)
        let secondName := normalizedIdentifier (String.mk b)
        { caps := caps
          hasColon := true
          firstName := firstName
          secondName := secondName
          firstInt := identifierStrToInt firstName
          secondInt := identifierStrToInt secondName }
      else
        { hasError := true
          errorMessage := "Invalid Port-Identifier: " ++ designation
          caps := caps }
    | none =>
      let firstName := normalizedIdentifier designation
      { caps := caps
        hasColon := false
        firstName := firstName
        secondName := ""
        firstInt := identifierStrToInt firstName
        secondInt := NULL_ID }

/-- Modelled from the spec: fulfills is declared in alsa_util.h, which is not
among the sources at hand.  The spec says a candidate is rejected when its
capabilities do not satisfy the capability mask requested in the profile, so
fulfills tests that every requested capability bit is present in the actual
capabilities. -/
def fulfills (actualCaps requestedCaps : PortCaps) : Bool :=
  actualCaps &&& requestedCaps = requestedCaps

/-- The function match from alsa_client.cpp (match is a reserved word in
Lean, hence the name matchPort): decides whether an actual port with the given
capabilities, identity and names fits the requested profile. -/
def matchPort (caps : PortCaps) (port : PortID) (clientName portName : String)
    (requested : PortProfile) : Bool :=
  if !fulfills caps requested.caps then false
  else
    let normalClientName := normalizedIdentifier clientName
    let normalPortName := normalizedIdentifier portName
    if requested.hasColon then
      if requested.firstInt = port.client &&
          (requested.secondInt = port.port ||
            normalizedIdentifier requested.secondName = normalPortName) then
        true
      else if normalizedIdentifier requested.firstName = normalClientName &&
          (normalizedIdentifier requested.secondName = normalPortName ||
            requested.secondInt = port.port) then
        true
      else false
    else
      normalizedIdentifier requested.firstName = normalPortName

/-- The match callback type MatchCallback from alsa_client.h. -/
abbrev MatchCallback :=
  PortCaps → PortID → String → String → PortProfile → Bool

/-- One port as enumerated by the sequencer service: its number, name and
capabilities, in the order snd_seq_query_next_port yields them. -/
structure SeqPort where
  portNr : Int
  portName : String
  caps : PortCaps
deriving DecidableEq, Repr

/-- One client as enumerated by the sequencer service, with its ports in the
order snd_seq_query_next_port yields them. -/
structure SeqClient where
  clientNr : Int
  clientName : String
  ports : List SeqPort
deriving DecidableEq, Repr

/-- The inner loop of findPort from alsa_client.cpp: scan the ports of one
client and return the first one the match callback accepts. -/
def findPortInClient (requested : PortProfile) (matchCb : MatchCallback)
    (clientNr : Int) (clientName : String) : List SeqPort → Option PortID
  | [] => none
  | p :: rest =>
    if matchCb p.caps ⟨clientNr, p.portNr⟩ clientName p.portName requested then
      some ⟨clientNr, p.portNr⟩
    else findPortInClient requested matchCb clientNr clientName rest

/-- The outer loop of findPort from alsa_client.cpp: scan the clients in
enumeration order. -/
def findPortInClients (requested : PortProfile) (matchCb : MatchCallback) :
    List SeqClient → Option PortID
  | [] => none
  | c :: rest =>
    match findPortInClient requested matchCb c.clientNr c.clientName c.ports with
    | some pid => some pid
    | none => findPortInClients requested matchCb rest

/-- findPort from alsa_client.cpp: an error-flagged profile returns
NULL_PORT_ID at once; otherwise the clients known to the sequencer (the
seqState argument models the service answers to snd_seq_query_next_client and
snd_seq_query_next_port) are scanned and the first accepted port is returned,
NULL_PORT_ID when none is. -/
def findPort (seqState : List SeqClient) (requested : PortProfile)
    (matchCb : MatchCallback) : PortID :=
  if requested.hasError then NULL_PORT_ID
  else
    match findPortInClients requested matchCb seqState with
    | some pid => pid
    | none => NULL_PORT_ID

/-- Number of match-callback invocations the inner loop of findPort performs. -/
def findPortInClientCalls (requested : PortProfile) (matchCb : MatchCallback)
    (clientNr : Int) (clientName : String) : List SeqPort → Nat
  | [] => 0
  | p :: rest =>
    if matchCb p.caps ⟨clientNr, p.portNr⟩ clientName p.portName requested then 1
    else findPortInClientCalls requested matchCb clientNr clientName rest + 1

/-- Number of match-callback invocations the outer loop of findPort performs. -/
def findPortInClientsCalls (requested : PortProfile) (matchCb : MatchCallback) :
    List SeqClient → Nat
  | [] => 0
  | c :: rest =>
    findPortInClientCalls requested matchCb c.clientNr c.clientName c.ports +
      (match findPortInClient requested matchCb c.clientNr c.clientName c.ports with
       | some _ => 0
       | none => findPortInClientsCalls requested matchCb rest)

/-- Number of match-callback invocations findPort performs. -/
def findPortCalls (seqState : List SeqClient) (requested : PortProfile)
    (matchCb : MatchCallback) : Nat :=
  if requested.hasError then 0
  else findPortInClientsCalls requested matchCb seqState

/-- One candidate port in the flattened enumeration order of the sequencer:
capabilities, identity, client name and port name. -/
structure Candidate where
  caps : PortCaps
  id : PortID
  clientName : String
  portName : String
deriving DecidableEq, Repr

/-- All ports of the sequencer in enumeration order, flattened. -/
def allCandidates (seqState : List SeqClient) : List Candidate :=
  seqState.flatMap (fun c =>
    c.ports.map (fun p => ⟨p.caps, ⟨c.clientNr, p.portNr⟩, c.clientName, p.portName⟩))

/-- The State enumeration from alsa_client.h: closed, idle, running. -/
inductive State where
  | closed
  | idle
  | running
deriving DecidableEq, Repr

/-- stateAsString from alsa_client.cpp. -/
def stateAsString : State → String
  | State.closed => "closed"
  | State.idle => "idle"
  | State.running => "running"

/-- The exceptions of alsa_client.h and the std::runtime_error raised inside
alsa_client.cpp: BadStateException, ServerException and runtime errors. -/
inductive AlsaError where
  | BadState (msg : String)
  | Server (msg : String)
  | Runtime (msg : String)
deriving DecidableEq, Repr

/-- The global mutable variables of alsa_client.cpp gathered in one record:
g_portId, g_clientId, g_stateFlag, g_connectTo, whether
g_onMonitorConnectionsHandler is set, g_monitoringActive, and whether the
receiver queue has been started.  The opaque sequencer and parser handles are
not represented. -/
structure ClientState where
  portId : Int := NULL_ID
  clientId : Int := NULL_ID
  stateFlag : State := State.closed
  connectTo : String := ""
  handlerInstalled : Bool := false
  monitoringActive : Bool := false
  queueRunning : Bool := false
deriving DecidableEq, Repr

/-- Answers of the ALSA service to the calls issued by open: whether
snd_seq_open, snd_seq_set_client_name and snd_midi_event_new succeed, and the
client number snd_seq_client_id reports (negative on error). -/
structure OpenEnv where
  seqOpenOk : Bool
  setNameOk : Bool
  newParserOk : Bool
  clientIdRes : Int
deriving DecidableEq, Repr

/-- The function open from alsa_client.cpp (open is a reserved word in Lean,
hence the name openClient).  Errors are returned as values; the returned state
holds the values the global variables have when the exception propagates. -/
def openClient (env : OpenEnv) (clientName : String) (s : ClientState) :
    Except AlsaError Unit × ClientState :=
  if s.stateFlag ≠ State.closed then
    (Except.error (AlsaError.BadState
      ("Cannot open ALSA client. Wrong state " ++ stateAsString s.stateFlag)), s)
  else if !env.seqOpenOk then
    (Except.error (AlsaError.Runtime "ALSA cannot open sequencer"), s)
  else if !env.setNameOk then
    (Except.error (AlsaError.Runtime "ALSA cannot set client name."), s)
  else if !env.newParserOk then
    (Except.error (AlsaError.Runtime "ALSA cannot create MIDI parser."), s)
  else
    let s1 := { s with portId := NULL_ID, clientId := env.clientIdRes }
    if env.clientIdRes < 0 then
      (Except.error (AlsaError.Runtime "ALSA cannot create client"), s1)
    else
      (Except.ok (), { s1 with stateFlag := State.idle })

/-- onMonitorConnections from alsa_client.cpp: registers the monitor handler,
refusing to do so in running state. -/
def onMonitorConnections (s : ClientState) : Except AlsaError Unit × ClientState :=
  if s.stateFlag = State.running then
    (Except.error (AlsaError.BadState
      ("Cannot register an OnMonitorConnectionsHandler. Wrong state " ++
        stateAsString s.stateFlag)), s)
  else
    (Except.ok (), { s with handlerInstalled := true })

/-- Answer of the ALSA service to snd_seq_create_simple_port: the new port
number, negative on error. -/
structure NewPortEnv where
  createPortRes : Int
deriving DecidableEq, Repr

/-- newReceiverPort from alsa_client.cpp: creates the single receiver port,
records the connect-to designation and installs the default monitor handler. -/
def newReceiverPort (env : NewPortEnv) (portName connectTo : String)
    (s : ClientState) : Except AlsaError Unit × ClientState :=
  if s.stateFlag ≠ State.idle then
    (Except.error (AlsaError.BadState
      ("Cannot create input port. Wrong state " ++ stateAsString s.stateFlag)), s)
  else if s.portId ≠ NULL_ID then
    (Except.error (AlsaError.Server "Cannot create more that one port."), s)
  else if env.createPortRes < 0 then
    (Except.error (AlsaError.Runtime "ALSA cannot create port"),
      { s with portId := NULL_ID })
  else
    let s1 := { s with portId := env.createPortRes, connectTo := connectTo }
    match onMonitorConnections s1 with
    | (Except.ok _, s2) => (Except.ok (), s2)
    | (Except.error e, s2) => (Except.error e, s2)

/-- activate from alsa_client.cpp: activateInternal starts connection
monitoring and the receiver queue, then the state becomes running.  The settle
sleep has no effect on the modelled state. -/
def activate (s : ClientState) : Except AlsaError Unit × ClientState :=
  if s.stateFlag ≠ State.idle then
    (Except.error (AlsaError.BadState
      ("Cannot create activate. Wrong state " ++ stateAsString s.stateFlag)), s)
  else
    (Except.ok (),
      { s with
        monitoringActive := true
        queueRunning := true
        stateFlag := State.running })

/-- stop from alsa_client.cpp: a no-op unless running; otherwise stopInternal
clears the monitoring flag and stops the queue, and the state becomes idle. -/
def stopClient (s : ClientState) : ClientState :=
  if s.stateFlag ≠ State.running then s
  else
    { s with
      monitoringActive := false
      queueRunning := false
      stateFlag := State.idle }

/-- close from alsa_client.cpp: a no-op when closed; otherwise stopInternal
runs and every global is reset to its null value. -/
def closeClient (s : ClientState) : ClientState :=
  if s.stateFlag = State.closed then s
  else
    { s with
      monitoringActive := false
      queueRunning := false
      portId := NULL_ID
      clientId := NULL_ID
      stateFlag := State.closed }

/-- receiverPortGetConnections from alsa_client.cpp.  The queryAnswer argument
models the subscriber list the service would report through
snd_seq_query_port_subscribers; when the guards fire the service is never
consulted, which the theorems express by quantifying over queryAnswer. -/
def receiverPortGetConnections (queryAnswer : List PortID) (s : ClientState) :
    List PortID :=
  if s.stateFlag = State.closed then []
  else if s.portId = NULL_ID then []
  else queryAnswer

/-- A decoded MIDI event (midi::Event): a byte sequence; the empty sequence is
the distinguished value meaning the transport event is not a MIDI message. -/
abbrev MidiEvent := List Nat

/-- A capture timestamp (sysClock::TimePoint), modelled as a natural number;
only its order matters. -/
abbrev TimePoint := Nat

/-- The per-event callback type RetrieveCallback of retrieve: it receives the
decoded event and its timestamp and returns an integer status. -/
abbrev RetrieveCallback := MidiEvent → TimePoint → Int

/-- Modelled from the spec: the receiver queue (alsa_receiver_queue) is not
among the sources at hand.  Its process call drains, in capture order, exactly
the queued events whose timestamp is at or before the deadline, applying the
closure to each and removing it; later events remain queued.  The queue is a
list of raw transport events (each given here directly by its decode result)
paired with capture timestamps, in capture order with monotone timestamps. -/
def drainUpTo {ε : Type} (deadline : TimePoint) (queue : List (ε × TimePoint)) :
    List (ε × TimePoint) × List (ε × TimePoint) :=
  (queue.takeWhile (fun e => e.2 ≤ deadline),
    queue.dropWhile (fun e => e.2 ≤ deadline))

/-- The processClosure of retrieve from alsa_client.cpp, folded over the
drained events: parseAlsaEvent (modelled by the decode argument, since the
actual decoding is done by the external snd_midi_event_decode) yields the
decoded event, and the caller's closure runs only when the event is non-empty
and no earlier invocation returned a non-zero status. -/
def retrieveStep {ε : Type} (decode : ε → MidiEvent)
    (forEachClosure : RetrieveCallback) (err : Int) (e : ε × TimePoint) : Int :=
  let midiEvent := decode e.1
  if !midiEvent.isEmpty && err = 0 then forEachClosure midiEvent e.2 else err

/-- The fold of the processClosure over the drained events, starting from the
zero status err of retrieve. -/
def retrieveFold {ε : Type} (decode : ε → MidiEvent) (forEachClosure : RetrieveCallback)
    (events : List (ε × TimePoint)) : Int :=
  events.foldl (retrieveStep decode forEachClosure) 0

/-- retrieve from alsa_client.cpp: returns -1 at once when not running;
otherwise processes the queue up to the deadline and returns the status left
in err together with the remaining queue. -/
def retrieve {ε : Type} (decode : ε → MidiEvent) (deadline : TimePoint)
    (forEachClosure : RetrieveCallback) (s : ClientState)
    (queue : List (ε × TimePoint)) : Int × List (ε × TimePoint) :=
  if s.stateFlag ≠ State.running then (-1, queue)
  else
    ((retrieveFold decode forEachClosure (drainUpTo deadline queue).1),
      (drainUpTo deadline queue).2)

/-- The fold of retrieve instrumented with the list of callback invocations it
performs, in order; the status component coincides with retrieveFold. -/
def retrieveTraceStep {ε : Type} (decode : ε → MidiEvent)
    (forEachClosure : RetrieveCallback) (acc : Int × List (MidiEvent × TimePoint))
    (e : ε × TimePoint) : Int × List (MidiEvent × TimePoint) :=
  let midiEvent := decode e.1
  if !midiEvent.isEmpty && acc.1 = 0 then
    (forEachClosure midiEvent e.2, acc.2 ++ [(midiEvent, e.2)])
  else acc

/-- The fold of retrieve instrumented with the list of callback invocations it
performs, in order; the status component coincides with retrieveFold. -/
def retrieveFoldTrace {ε : Type} (decode : ε → MidiEvent)
    (forEachClosure : RetrieveCallback) (events : List (ε × TimePoint)) :
    Int × List (MidiEvent × TimePoint) :=
  events.foldl (retrieveTraceStep decode forEachClosure) (0, [])

/-- The callback invocations retrieve performs, in order (empty when not
running). -/
def retrieveInvocations {ε : Type} (decode : ε → MidiEvent) (deadline : TimePoint)
    (forEachClosure : RetrieveCallback) (s : ClientState)
    (queue : List (ε × TimePoint)) : List (MidiEvent × TimePoint) :=
  if s.stateFlag ≠ State.running then []
  else (retrieveFoldTrace decode forEachClosure (drainUpTo deadline queue).1).2

/-- Specification-side view: the non-empty decoded events of a drained
segment, with their timestamps, in capture order. -/
def nonEmptyDecoded {ε : Type} (decode : ε → MidiEvent)
    (events : List (ε × TimePoint)) : List (MidiEvent × TimePoint) :=
  events.filterMap
    (fun e =>
      let m := decode e.1
      if m.isEmpty then none else some (m, e.2))

/-- Specification-side view: the prefix of events a callback sees, ending with
the first event on which it returns a non-zero status. -/
def callbackInvocations (forEachClosure : RetrieveCallback) :
    List (MidiEvent × TimePoint) → List (MidiEvent × TimePoint)
  | [] => []
  | e :: rest =>
    e :: (if forEachClosure e.1 e.2 = 0 then callbackInvocations forEachClosure rest
          else [])

/-- Specification-side view: the first non-zero status a callback returns on a
list of events, or zero when there is none. -/
def firstNonZeroStatus (forEachClosure : RetrieveCallback) :
    List (MidiEvent × TimePoint) → Int
  | [] => 0
  | e :: rest =>
    if forEachClosure e.1 e.2 = 0 then firstNonZeroStatus forEachClosure rest
    else forEachClosure e.1 e.2

/-- Environment the connection monitor works in: the clients and ports the
sequencer currently exposes, the inbound connections of the receiver port as
snd_seq_query_port_subscribers reports them, and whether the service would
accept snd_seq_connect_from for a given receiver port and source port. -/
structure MonitorEnv where
  seqState : List SeqClient
  inbound : List PortID
  connectFromOk : Int → PortID → Bool

/-- What one run of the default monitor handler does to the outside world. -/
inductive ConnectOutcome where
  | noAction
  | connectRequested (target : PortID)
  | threw (msg : String)
deriving DecidableEq, Repr

/-- receiverPortGetConnectionsInternal from alsa_client.cpp: returns the
subscriber list the service reports. -/
def receiverPortGetConnectionsInternal (env : MonitorEnv) : List PortID :=
  env.inbound

/-- tryToConnect from alsa_client.cpp, translated faithfully: an empty
designation returns at once; otherwise the designation is parsed and searched.
When the search fails the source merely logs and FALLS THROUGH, so
snd_seq_connect_from is still issued, with NULL_PORT_ID as the source address;
a failing connect raises std::runtime_error. -/
def tryToConnect (env : MonitorEnv) (portId : Int) (designation : String) :
    ConnectOutcome :=
  if designation.data.isEmpty then ConnectOutcome.noAction
  else
    let searchProfile := toProfile SENDER_PORT designation
    let target := findPort env.seqState searchProfile matchPort
    if env.connectFromOk portId target then ConnectOutcome.connectRequested target
    else ConnectOutcome.threw ("ALSA cannot connect to port [" ++ designation ++ "]")

/-- defaultConnectionsHandler from alsa_client.cpp, invoked on every monitor
tick with g_connectTo: does nothing when no connection is requested, when no
receiver port exists, or when something is already connected; otherwise it
tries to connect. -/
def defaultConnectionsHandler (env : MonitorEnv) (portId : Int)
    (connectTo : String) : ConnectOutcome :=
  if connectTo.data.isEmpty then ConnectOutcome.noAction
  else if portId = NULL_ID then ConnectOutcome.noAction
  else if !(receiverPortGetConnectionsInternal env).isEmpty then ConnectOutcome.noAction
  else tryToConnect env portId connectTo

/-- C2: open, newReceiverPort and activate, invoked from a state that does not
permit them (open when not closed, newReceiverPort and activate when not
idle), raise BadStateException and leave the whole session state unchanged. -/
theorem badState_leaves_state_unchanged (s : ClientState)
    (envO : OpenEnv) (envP : NewPortEnv) (clientName portName connectTo : String) :
    (s.stateFlag ≠ State.closed →
      openClient envO clientName s =
        (Except.error (AlsaError.BadState
          ("Cannot open ALSA client. Wrong state " ++ stateAsString s.stateFlag)), s)) ∧
    (s.stateFlag ≠ State.idle →
      newReceiverPort envP portName connectTo s =
        (Except.error (AlsaError.BadState
          ("Cannot create input port. Wrong state " ++ stateAsString s.stateFlag)), s)) ∧
    (s.stateFlag ≠ State.idle →
      activate s =
        (Except.error (AlsaError.BadState
          ("Cannot create activate. Wrong state " ++ stateAsString s.stateFlag)), s)) := by
  refine ⟨fun h => ?_, fun h => ?_, fun h => ?_⟩ <;>
    simp [openClient, newReceiverPort, activate, h]

/-- Witness for C2 at a concrete running-state session. -/
theorem badState_leaves_state_unchanged_witness :
    (openClient ⟨true, true, true, 0⟩ "c" { stateFlag := State.running } =
      (Except.error (AlsaError.BadState
        ("Cannot open ALSA client. Wrong state " ++ stateAsString State.running)),
        { stateFlag := State.running })) ∧
    (newReceiverPort ⟨0⟩ "p" "t" { stateFlag := State.running } =
      (Except.error (AlsaError.BadState
        ("Cannot create input port. Wrong state " ++ stateAsString State.running)),
        { stateFlag := State.running })) ∧
    (activate { stateFlag := State.running } =
      (Except.error (AlsaError.BadState
        ("Cannot create activate. Wrong state " ++ stateAsString State.running)),
        { stateFlag := State.running })) := by
  have h := badState_leaves_state_unchanged { stateFlag := State.running }
    ⟨true, true, true, 0⟩ ⟨0⟩ "c" "p" "t"
  exact ⟨h.1 (by decide), h.2.1 (by decide), h.2.2 (by decide)⟩

/-- C8: retrieve called while the state is not running returns the sentinel
status -1, leaves the queue untouched and performs no callback invocation;
this holds for every decode function and every callback, so neither is
consulted. -/
theorem retrieve_not_running {e : Type} (decode : e → MidiEvent)
    (deadline : TimePoint) (forEachClosure : RetrieveCallback)
    (s : ClientState) (queue : List (e × TimePoint))
    (h : s.stateFlag ≠ State.running) :
    retrieve decode deadline forEachClosure s queue = (-1, queue) ∧
    retrieveInvocations decode deadline forEachClosure s queue = [] := by
  constructor <;> simp [retrieve, retrieveInvocations, h]

/-- Witness for C8 on a closed session with a non-empty queue. -/
theorem retrieve_not_running_witness :
    retrieve (fun n : Nat => [n]) 5 (fun _ _ => 1) { } [(3, 2)] = (-1, [(3, 2)]) ∧
    retrieveInvocations (fun n : Nat => [n]) 5 (fun _ _ => 1) { } [(3, 2)] = [] :=
  retrieve_not_running (fun n : Nat => [n]) 5 (fun _ _ => 1) { } [(3, 2)] (by decide)

/-- C10: receiverPortGetConnections returns the empty list whenever the
session is closed or no receiver port exists, whatever subscriber list the
service would report (so the service is not consulted). -/
theorem receiverPortGetConnections_guarded (s : ClientState)
    (queryAnswer : List PortID)
    (h : s.stateFlag = State.closed ∨ s.portId = NULL_ID) :
    receiverPortGetConnections queryAnswer s = [] := by
  rcases h with h | h <;> simp [receiverPortGetConnections, h]

/-- Witness for C10 on an idle session without a receiver port. -/
theorem receiverPortGetConnections_guarded_witness :
    receiverPortGetConnections [⟨1, 2⟩] { stateFlag := State.idle } = [] :=
  receiverPortGetConnections_guarded { stateFlag := State.idle } [⟨1, 2⟩]
    (Or.inr (by decide))

/-- C1: with the receiver port created, no inbound connection and a
designation matching no port, the default monitor handler does not only log
and return: the missing return after the log makes it issue
snd_seq_connect_from with the NULL_PORT_ID address, so it either reports a
connect request for (-1, -1) or, when the service rejects it, raises a
runtime error inside the monitor thread. -/
theorem defaultConnectionsHandler_unresolved_escalates :
    findPort [] (toProfile SENDER_PORT "nonexistent") matchPort = NULL_PORT_ID ∧
    defaultConnectionsHandler ⟨[], [], fun _ _ => false⟩ 0 "nonexistent" =
      ConnectOutcome.threw "ALSA cannot connect to port [nonexistent]" ∧
    defaultConnectionsHandler ⟨[], [], fun _ _ => true⟩ 0 "nonexistent" =
      ConnectOutcome.connectRequested NULL_PORT_ID := by
  refine ⟨rfl, rfl, rfl⟩

/-- C4: characterization of matchPort for error-free profiles: a capability
mismatch refuses at once; with a colon the candidate matches exactly when one
of the two number-or-name combinations holds; without a colon exactly when the
normalized first name equals the normalized port name. -/
theorem matchPort_spec (caps : PortCaps) (port : PortID)
    (clientName portName : String) (requested : PortProfile)
    (hp : requested.hasError = false) :
    (fulfills caps requested.caps = false →
      matchPort caps port clientName portName requested = false) ∧
    (fulfills caps requested.caps = true → requested.hasColon = true →
      (matchPort caps port clientName portName requested = true ↔
        ((requested.firstInt = port.client ∧
            (requested.secondInt = port.port ∨
              normalizedIdentifier requested.secondName = normalizedIdentifier portName)) ∨
          (normalizedIdentifier requested.firstName = normalizedIdentifier clientName ∧
            (normalizedIdentifier requested.secondName = normalizedIdentifier portName ∨
              requested.secondInt = port.port))))) ∧
    (fulfills caps requested.caps = true → requested.hasColon = false →
      (matchPort caps port clientName portName requested = true ↔
        normalizedIdentifier requested.firstName = normalizedIdentifier portName)) := by
  refine ⟨fun h => ?_, fun h hc => ?_, fun h hc => ?_⟩
  · simp [matchPort, h]
  · simp [matchPort, h, hc, Bool.and_eq_true, Bool.or_eq_true, decide_eq_true_eq]
  · simp [matchPort, h, hc, Bool.and_eq_true, Bool.or_eq_true, decide_eq_true_eq]


/-- Witness for C4: a capability mismatch refuses a port that would match by
numbers, and with matching capabilities the numeric pair accepts it. -/
theorem matchPort_spec_witness :
    matchPort 0 ⟨3, 4⟩ "clientA" "portB"
      { hasColon := true, firstInt := 3, secondInt := 4, caps := 33 } = false ∧
    matchPort 33 ⟨3, 4⟩ "clientA" "portB"
      { hasColon := true, firstInt := 3, secondInt := 4, caps := 33 } = true := by
  have h1 := matchPort_spec 0 ⟨3, 4⟩ "clientA" "portB"
    { hasColon := true, firstInt := 3, secondInt := 4, caps := 33 } rfl
  have h2 := matchPort_spec 33 ⟨3, 4⟩ "clientA" "portB"
    { hasColon := true, firstInt := 3, secondInt := 4, caps := 33 } rfl
  exact ⟨h1.1 (by decide), (h2.2.1 (by decide) rfl).mpr (Or.inl ⟨rfl, Or.inl rfl⟩)⟩

/-- The predicate the flattened enumeration applies to one candidate. -/
def acceptsCandidate (requested : PortProfile) (matchCb : MatchCallback)
    (cand : Candidate) : Bool :=
  matchCb cand.caps cand.id cand.clientName cand.portName requested

/-- The candidates one client contributes to the flattened enumeration. -/
def clientCandidates (c : SeqClient) : List Candidate :=
  c.ports.map (fun p => ⟨p.caps, ⟨c.clientNr, p.portNr⟩, c.clientName, p.portName⟩)

theorem allCandidates_cons (c : SeqClient) (rest : List SeqClient) :
    allCandidates (c :: rest) = clientCandidates c ++ allCandidates rest := by
  simp [allCandidates, clientCandidates]

theorem findPortInClient_eq_find (requested : PortProfile) (matchCb : MatchCallback)
    (clientNr : Int) (clientName : String) (ports : List SeqPort) :
    findPortInClient requested matchCb clientNr clientName ports =
      ((clientCandidates ⟨clientNr, clientName, ports⟩).find?
        (acceptsCandidate requested matchCb)).map Candidate.id := by
  induction ports with
  | nil => rfl
  | cons p rest ih =>
    by_cases h : matchCb p.caps ⟨clientNr, p.portNr⟩ clientName p.portName requested
    · simp [findPortInClient, h, clientCandidates, List.find?_cons, acceptsCandidate]
    · simp only [findPortInClient, h, if_neg, Bool.false_eq_true, if_false, ih]
      simp [clientCandidates, List.find?_cons, acceptsCandidate, h]

theorem findPortInClients_eq_find (requested : PortProfile) (matchCb : MatchCallback)
    (clients : List SeqClient) :
    findPortInClients requested matchCb clients =
      ((allCandidates clients).find? (acceptsCandidate requested matchCb)).map
        Candidate.id := by
  induction clients with
  | nil => rfl
  | cons c rest ih =>
    rw [findPortInClients, findPortInClient_eq_find, allCandidates_cons,
      List.find?_append]
    cases h : (clientCandidates c).find? (acceptsCandidate requested matchCb) with
    | none => simpa [h, Option.orElse] using ih
    | some cand => simp [h, Option.orElse]

theorem findPortInClientCalls_le (requested : PortProfile) (matchCb : MatchCallback)
    (clientNr : Int) (clientName : String) (ports : List SeqPort) :
    findPortInClientCalls requested matchCb clientNr clientName ports ≤
      ports.length := by
  induction ports with
  | nil => simp [findPortInClientCalls]
  | cons p rest ih =>
    by_cases h : matchCb p.caps ⟨clientNr, p.portNr⟩ clientName p.portName requested
    · simp [findPortInClientCalls, h]
    · simp [findPortInClientCalls, h]
      omega

theorem findPortInClientsCalls_le (requested : PortProfile) (matchCb : MatchCallback)
    (clients : List SeqClient) :
    findPortInClientsCalls requested matchCb clients ≤
      (allCandidates clients).length := by
  induction clients with
  | nil => simp [findPortInClientsCalls, allCandidates]
  | cons c rest ih =>
    have hin := findPortInClientCalls_le requested matchCb c.clientNr c.clientName c.ports
    have hlen : (allCandidates (c :: rest)).length =
        c.ports.length + (allCandidates rest).length := by
      simp [allCandidates_cons, clientCandidates]
    rw [findPortInClientsCalls, hlen]
    cases h : findPortInClient requested matchCb c.clientNr c.clientName c.ports with
    | some pid => simp; omega
    | none => simp; omega

/-- C5: findPort with an error-flagged profile returns NULL_PORT_ID without a
single match invocation; otherwise it invokes match at most once per known
port and returns the identifier of the first candidate, in client-then-port
enumeration order, that the match callback accepts, NULL_PORT_ID when the
enumeration is exhausted. -/
theorem findPort_spec (seqState : List SeqClient) (requested : PortProfile)
    (matchCb : MatchCallback) :
    (requested.hasError = true →
      findPort seqState requested matchCb = NULL_PORT_ID ∧
      findPortCalls seqState requested matchCb = 0) ∧
    (requested.hasError = false →
      findPortCalls seqState requested matchCb ≤ (allCandidates seqState).length ∧
      findPort seqState requested matchCb =
        (((allCandidates seqState).find? (acceptsCandidate requested matchCb)).map
          Candidate.id).getD NULL_PORT_ID) := by
  constructor
  · intro h
    simp [findPort, findPortCalls, h]
  · intro h
    refine ⟨?_, ?_⟩
    · simpa [findPortCalls, h] using findPortInClientsCalls_le requested matchCb seqState
    · rw [findPort, if_neg (by simp [h]), findPortInClients_eq_find]
      cases hfind : (allCandidates seqState).find? (acceptsCandidate requested matchCb) with
      | none => simp
      | some cand => simp

/-- Witness for C5 on a sequencer exposing two clients and three ports, the
callback accepting the ports of client 20: the first such port is returned
after at most three match invocations. -/
theorem findPort_spec_witness :
    findPort
      [⟨10, "ClientA", [⟨0, "PortX", 33⟩]⟩,
        ⟨20, "ClientB", [⟨0, "PortY", 33⟩, ⟨1, "PortZ", 33⟩]⟩]
      { } (fun _ pid _ _ _ => pid.client == 20) = ⟨20, 0⟩ ∧
    findPortCalls
      [⟨10, "ClientA", [⟨0, "PortX", 33⟩]⟩,
        ⟨20, "ClientB", [⟨0, "PortY", 33⟩, ⟨1, "PortZ", 33⟩]⟩]
      { } (fun _ pid _ _ _ => pid.client == 20) ≤ 3 := by
  have h := (findPort_spec
    [⟨10, "ClientA", [⟨0, "PortX", 33⟩]⟩,
      ⟨20, "ClientB", [⟨0, "PortY", 33⟩, ⟨1, "PortZ", 33⟩]⟩]
    { } (fun _ pid _ _ _ => pid.client == 20)).2 rfl
  refine ⟨h.2.trans (by rfl), le_trans h.1 (by rfl)⟩

theorem nonEmptyDecoded_cons {e : Type} (decode : e → MidiEvent)
    (ev : e × TimePoint) (rest : List (e × TimePoint)) :
    nonEmptyDecoded decode (ev :: rest) =
      if (decode ev.1).isEmpty then nonEmptyDecoded decode rest
      else (decode ev.1, ev.2) :: nonEmptyDecoded decode rest := by
  by_cases hm : (decode ev.1).isEmpty <;> simp_all [nonEmptyDecoded]

theorem retrieveFold_frozen {e : Type} (decode : e → MidiEvent)
    (forEachClosure : RetrieveCallback) (events : List (e × TimePoint))
    (err : Int) (h : err ≠ 0) :
    events.foldl (retrieveStep decode forEachClosure) err = err := by
  induction events with
  | nil => rfl
  | cons ev rest ih => simp [List.foldl_cons, retrieveStep, h, ih]

theorem retrieveTrace_frozen {e : Type} (decode : e → MidiEvent)
    (forEachClosure : RetrieveCallback) (events : List (e × TimePoint))
    (acc : Int × List (MidiEvent × TimePoint)) (h : acc.1 ≠ 0) :
    events.foldl (retrieveTraceStep decode forEachClosure) acc = acc := by
  induction events with
  | nil => rfl
  | cons ev rest ih => simp [List.foldl_cons, retrieveTraceStep, h, ih]

theorem retrieveFold_eq_firstNonZero {e : Type} (decode : e → MidiEvent)
    (forEachClosure : RetrieveCallback) (events : List (e × TimePoint)) :
    retrieveFold decode forEachClosure events =
      firstNonZeroStatus forEachClosure (nonEmptyDecoded decode events) := by
  unfold retrieveFold
  induction events with
  | nil => rfl
  | cons ev rest ih =>
    rw [List.foldl_cons, nonEmptyDecoded_cons]
    by_cases hm : (decode ev.1).isEmpty
    · have hstep : retrieveStep decode forEachClosure 0 ev = 0 := by
        simp [retrieveStep, hm]
      rw [hstep, if_pos hm]
      exact ih
    · have hm2 : (decode ev.1).isEmpty = false := by simpa using hm
      have hstep : retrieveStep decode forEachClosure 0 ev =
          forEachClosure (decode ev.1) ev.2 := by
        simp [retrieveStep, hm2]
      rw [hstep, if_neg hm]
      by_cases hc : forEachClosure (decode ev.1) ev.2 = 0
      · rw [hc]
        simp only [firstNonZeroStatus, hc, if_pos]
        exact ih
      · rw [retrieveFold_frozen decode forEachClosure rest _ hc]
        simp [firstNonZeroStatus, hc]

theorem retrieveTrace_invs {e : Type} (decode : e → MidiEvent)
    (forEachClosure : RetrieveCallback) (events : List (e × TimePoint)) :
    ∀ invs : List (MidiEvent × TimePoint),
      events.foldl (retrieveTraceStep decode forEachClosure) (0, invs) =
        (firstNonZeroStatus forEachClosure (nonEmptyDecoded decode events),
          invs ++ callbackInvocations forEachClosure (nonEmptyDecoded decode events)) := by
  induction events with
  | nil =>
    intro invs
    simp [nonEmptyDecoded, firstNonZeroStatus, callbackInvocations]
  | cons ev rest ih =>
    intro invs
    rw [List.foldl_cons, nonEmptyDecoded_cons]
    by_cases hm : (decode ev.1).isEmpty
    · have hstep : retrieveTraceStep decode forEachClosure (0, invs) ev = (0, invs) := by
        simp [retrieveTraceStep, hm]
      rw [hstep, if_pos hm]
      exact ih invs
    · have hm2 : (decode ev.1).isEmpty = false := by simpa using hm
      have hstep : retrieveTraceStep decode forEachClosure (0, invs) ev =
          (forEachClosure (decode ev.1) ev.2, invs ++ [(decode ev.1, ev.2)]) := by
        simp [retrieveTraceStep, hm2]
      rw [hstep, if_neg hm]
      by_cases hc : forEachClosure (decode ev.1) ev.2 = 0
      · rw [hc, ih (invs ++ [(decode ev.1, ev.2)])]
        simp [firstNonZeroStatus, callbackInvocations, hc]
      · rw [retrieveTrace_frozen decode forEachClosure rest _ hc]
        simp [firstNonZeroStatus, callbackInvocations, hc]

/-- C3: retrieve in running state drains exactly the events captured at or
before the deadline (the rest stay queued), invokes the callback on the
non-empty decoded events in capture order stopping after the first non-zero
status, and returns that first non-zero status, or zero when every invocation
returned zero or no event was delivered. -/
theorem retrieve_running_spec {e : Type} (decode : e → MidiEvent)
    (deadline : TimePoint) (forEachClosure : RetrieveCallback)
    (s : ClientState) (queue : List (e × TimePoint))
    (h : s.stateFlag = State.running) :
    retrieve decode deadline forEachClosure s queue =
      (firstNonZeroStatus forEachClosure
        (nonEmptyDecoded decode (queue.takeWhile (fun ev => ev.2 ≤ deadline))),
        queue.dropWhile (fun ev => ev.2 ≤ deadline)) ∧
    retrieveInvocations decode deadline forEachClosure s queue =
      callbackInvocations forEachClosure
        (nonEmptyDecoded decode (queue.takeWhile (fun ev => ev.2 ≤ deadline))) := by
  constructor
  · simp [retrieve, h, drainUpTo, retrieveFold_eq_firstNonZero]
  · simp [retrieveInvocations, h, drainUpTo, retrieveFoldTrace,
      retrieveTrace_invs decode forEachClosure _ []]

/-- Witness for C3, the scenario of the spec: four queued events of which
three are ready, the callback returns 7 on the second, retrieve returns 7,
the callback ran on the first two events only, and the three ready events
left the queue while the one past the deadline stays. -/
theorem retrieve_running_spec_witness :
    retrieve (fun n : Nat => if n = 0 then [] else [n]) 10
      (fun m _ => if m = [2] then 7 else 0) { stateFlag := State.running }
      [(1, 0), (2, 1), (3, 2), (4, 20)] = (7, [(4, 20)]) ∧
    retrieveInvocations (fun n : Nat => if n = 0 then [] else [n]) 10
      (fun m _ => if m = [2] then 7 else 0) { stateFlag := State.running }
      [(1, 0), (2, 1), (3, 2), (4, 20)] = [([1], 0), ([2], 1)] := by
  have h := retrieve_running_spec (fun n : Nat => if n = 0 then [] else [n]) 10
    (fun m _ => if m = [2] then 7 else 0) { stateFlag := State.running }
    [(1, 0), (2, 1), (3, 2), (4, 20)] rfl
  exact ⟨h.1.trans (by rfl), h.2.trans (by rfl)⟩

theorem splitAtFirstColon_none_iff (l : List Char) :
    splitAtFirstColon l = none ↔ l.count ':' = 0 := by
  induction l with
  | nil => simp [splitAtFirstColon]
  | cons c rest ih =>
    by_cases h : c = ':'
    · subst h
      simp [splitAtFirstColon, List.count_cons]
    · rw [splitAtFirstColon, if_neg h]
      cases hs : splitAtFirstColon rest with
      | none =>
        have := ih.mp hs
        simp [List.count_cons, h, this]
      | some ab =>
        have hne : rest.count ':' ≠ 0 := by
          intro h0
          rw [ih.mpr h0] at hs
          exact Option.noConfusion hs
        simp [List.count_cons, h, hne]

theorem splitAtFirstColon_some (l a b : List Char)
    (h : splitAtFirstColon l = some (a, b)) :
    l = a ++ ':' :: b ∧ a.count ':' = 0 := by
  induction l generalizing a b with
  | nil => exact Option.noConfusion h
  | cons c rest ih =>
    by_cases hc : c = ':'
    · subst hc
      rw [splitAtFirstColon, if_pos rfl] at h
      obtain ⟨ha, hb⟩ := Prod.mk.injEq .. ▸ Option.some.inj h
      subst ha
      subst hb
      simp
    · rw [splitAtFirstColon, if_neg hc] at h
      cases hs : splitAtFirstColon rest with
      | none =>
        rw [hs] at h
        exact Option.noConfusion h
      | some ab =>
        obtain ⟨a2, b2⟩ := ab
        rw [hs] at h
        obtain ⟨ha, hb⟩ := Prod.mk.injEq .. ▸ Option.some.inj h
        obtain ⟨hl, hcount⟩ := ih a2 b2 hs
        subst hb
        rw [← ha]
        constructor
        · rw [hl]
          simp
        · simp [List.count_cons, hc, hcount]

theorem mem_of_getLast?_eq {l : List Char} {a : Char} (h : l.getLast? = some a) :
    a ∈ l := by
  rcases List.mem_getLast?_eq_getLast (by rw [h]; rfl : a ∈ l.getLast?) with ⟨hn, he⟩
  rw [he]
  exact List.getLast_mem hn

/-- C6: toProfile flags exactly the invalid designations: the empty string,
a string with two or more colons, and a string with exactly one colon at its
start or end (an empty token); every flagged profile carries a non-empty
message and every other input yields an error-free profile.  The embedding is
a total function, reflecting that the C++ never throws here. -/
theorem toProfile_invalid_iff (caps : PortCaps) (designation : String) :
    ((toProfile caps designation).hasError = true ↔
      (designation.data = [] ∨ 2 ≤ designation.data.count ':' ∨
        (designation.data.count ':' = 1 ∧
          (designation.data.head? = some ':' ∨
            designation.data.getLast? = some ':')))) ∧
    ((toProfile caps designation).hasError = true →
      (toProfile caps designation).errorMessage ≠ "") := by
  by_cases hnil : designation.data = []
  · have hmsg0 : (toProfile caps designation).errorMessage =
        "Port-Identifier seems to be empty." := by
      simp [toProfile, hnil]
    constructor
    · simp [toProfile, hnil]
    · intro hh
      rw [hmsg0]
      decide
  · have hempty : designation.data.isEmpty = false := by simp [hnil]
    cases hsplit : splitAtFirstColon designation.data with
    | none =>
      have hcount : designation.data.count ':' = 0 :=
        (splitAtFirstColon_none_iff _).mp hsplit
      have herr : (toProfile caps designation).hasError = false := by
        simp only [toProfile, hempty, hsplit]
        rfl
      constructor
      · rw [herr]
        simp [hnil, hcount]
      · rw [herr]
        intro hcon
        exact Bool.noConfusion hcon
    | some ab =>
      obtain ⟨a, b⟩ := ab
      obtain ⟨hl, hacount⟩ := splitAtFirstColon_some _ a b hsplit
      by_cases hok : a ≠ [] ∧ b ≠ [] ∧ ¬ b.contains ':'
      · have herr : (toProfile caps designation).hasError = false := by
          simp only [toProfile, hempty, hsplit]
          rw [if_neg (by simp [hempty]), if_pos hok]
        obtain ⟨ha, hb, hnc⟩ := hok
        have hbcount : b.count ':' = 0 := by
          rw [List.count_eq_zero]
          intro hm
          exact hnc (List.elem_iff.mpr hm)
        have hcount : designation.data.count ':' = 1 := by
          rw [hl]
          simp [List.count_append, List.count_cons, hbcount, hacount]
        have hhead : designation.data.head? ≠ some ':' := by
          rw [hl]
          cases a with
          | nil => exact absurd rfl ha
          | cons c a2 =>
            have hcne : c ≠ ':' := by
              intro hceq
              subst hceq
              simp [List.count_cons] at hacount
            simp [hcne]
        have hlast : designation.data.getLast? ≠ some ':' := by
          rw [hl, List.getLast?_append_of_ne_nil a (by simp)]
          cases b with
          | nil => exact absurd rfl hb
          | cons d b2 =>
            rw [List.getLast?_cons_cons]
            intro hcon
            have : (':' : Char) ∈ d :: b2 := mem_of_getLast?_eq hcon
            rw [List.count_eq_zero] at hbcount
            exact hbcount this
        rw [herr]
        constructor
        · simp [hnil, hcount, hhead, hlast]
        · intro hcon
          exact Bool.noConfusion hcon
      · have herr : (toProfile caps designation).hasError = true := by
          simp only [toProfile, hempty, hsplit]
          rw [if_neg (by simp [hempty]), if_neg hok]
        have hmsg : (toProfile caps designation).errorMessage =
            "Invalid Port-Identifier: " ++ designation := by
          simp only [toProfile, hempty, hsplit]
          rw [if_neg (by simp [hempty]), if_neg hok]
        refine ⟨?_, ?_⟩
        · rw [herr]
          simp only [true_iff]
          by_cases hbc : b.contains ':' = true
          · have hpos : 0 < List.count ':' b :=
              List.count_pos_iff.mpr (List.elem_iff.mp hbc)
            refine Or.inr (Or.inl ?_)
            have hctot : designation.data.count ':' = List.count ':' b + 1 := by
              rw [hl]
              simp [List.count_append, List.count_cons, hacount]
            rw [hctot]
            omega
          · have hbcount : b.count ':' = 0 := by
              rw [List.count_eq_zero]
              intro hm
              exact hbc (List.elem_iff.mpr hm)
            have hcount : designation.data.count ':' = 1 := by
              rw [hl]
              simp [List.count_append, List.count_cons, hbcount, hacount]
            have hab : a = [] ∨ b = [] := by
              by_contra hcon
              push_neg at hcon
              exact hok ⟨hcon.1, hcon.2, hbc⟩
            refine Or.inr (Or.inr ⟨hcount, ?_⟩)
            rcases hab with ha | hb
            · refine Or.inl ?_
              rw [hl, ha]
              rfl
            · refine Or.inr ?_
              rw [hl, hb, List.getLast?_concat]
        · intro hh
          rw [hmsg]
          intro hcon
          have := congrArg String.data hcon
          simp [String.data_append] at this


/-- Witness for C6: a designation with two colons is flagged with a non-empty
message. -/
theorem toProfile_invalid_iff_witness :
    (toProfile 33 "a:b:c").hasError = true ∧
    (toProfile 33 "a:b:c").errorMessage ≠ "" := by
  have h := toProfile_invalid_iff 33 "a:b:c"
  have herr : (toProfile 33 "a:b:c").hasError = true :=
    h.1.mpr (Or.inr (Or.inl (by decide)))
  exact ⟨herr, h.2 herr⟩

/-- Specification-side notion used by the claim under test: a token is a pure
integer when it is a non-empty all-digit string. -/
def isPureIntegerToken (s : String) : Bool :=
  !s.data.isEmpty && s.data.all Char.isDigit

/-- Specification-side characterization of the numeric interpretation the
code actually stores: the value of the maximal leading digit run of the
token, when there is one and it fits in a machine int, NULL_ID otherwise. -/
def leadingDigitsValue (s : String) : Int :=
  let digits := s.data.takeWhile Char.isDigit
  if digits.isEmpty then NULL_ID
  else if (2 : Int) ^ 31 ≤ (digitRunValue digits : Int) then NULL_ID
  else (digitRunValue digits : Int)

/-- Counterexample for C7: the token 12abc is not a pure integer, yet
toProfile stores 12 for it, not NULL_ID, because std::stoi only reads the
leading digit run and ignores what follows. -/
theorem toProfile_int_trailing_garbage :
    isPureIntegerToken "12abc" = false ∧
    (toProfile SENDER_PORT "12abc").firstInt = 12 ∧
    (12 : Int) ≠ NULL_ID := by
  refine ⟨by decide, by decide, by decide⟩

theorem normalizedIdentifier_chars (t : String) :
    ∀ c ∈ (normalizedIdentifier t).data, isAsciiAlnum c = true ∨ c = '_' := by
  intro c hc
  simp only [normalizedIdentifier, List.mem_map] at hc
  obtain ⟨d, hd, he⟩ := hc
  by_cases h : isAsciiAlnum d
  · rw [if_pos h] at he
    subst he
    exact Or.inl h
  · rw [if_neg h] at he
    exact Or.inr he.symm

theorem not_space_of_alnum_or_underscore (c : Char)
    (h : isAsciiAlnum c = true ∨ c = '_') : isCppSpace c = false := by
  rcases h with h | h
  · by_contra hs
    rw [Bool.not_eq_false] at hs
    have hc : c = ' ' ∨ c = '\t' ∨ c = '\n' ∨ c = '\x0d' ∨ c = '\x0c' ∨
        c = '\x0b' := by
      simpa [isCppSpace, or_assoc] using hs
    rcases hc with h1 | h1 | h1 | h1 | h1 | h1 <;> subst h1 <;> revert h <;> decide
  · subst h
    decide

theorem identifierStrToInt_normalized (t : String) :
    identifierStrToInt (normalizedIdentifier t) =
      leadingDigitsValue (normalizedIdentifier t) := by
  have hchars := normalizedIdentifier_chars t
  have hmemHead : ∀ c, (normalizedIdentifier t).data.head? = some c →
      c ∈ (normalizedIdentifier t).data := by
    intro c hc
    cases hdd : (normalizedIdentifier t).data with
    | nil =>
      rw [hdd] at hc
      exact Option.noConfusion hc
    | cons x l =>
      rw [hdd] at hc
      obtain rfl : x = c := Option.some.inj hc
      exact List.mem_cons_self _ _
  have hneg : (normalizedIdentifier t).data.head? = some '-' → False := by
    intro hc
    rcases hchars '-' (hmemHead '-' hc) with h | h <;> revert h <;> decide
  have hplus : (normalizedIdentifier t).data.head? = some '+' → False := by
    intro hc
    rcases hchars '+' (hmemHead '+' hc) with h | h <;> revert h <;> decide
  have hdrop : (normalizedIdentifier t).data.dropWhile isCppSpace =
      (normalizedIdentifier t).data := by
    cases hdd : (normalizedIdentifier t).data with
    | nil => rfl
    | cons x l =>
      have hx : isCppSpace x = false := by
        apply not_space_of_alnum_or_underscore
        apply hchars
        rw [hdd]
        exact List.mem_cons_self x l
      simp [List.dropWhile_cons, hx]
  simp only [identifierStrToInt, stoiResult, leadingDigitsValue, hdrop,
    eq_false hneg, eq_false hplus, false_or, if_false, one_mul]
  by_cases hd : (List.takeWhile Char.isDigit (normalizedIdentifier t).data).isEmpty = true
  · rw [if_pos hd, if_pos hd]
    rfl
  · rw [if_neg hd, if_neg hd]
    by_cases hbig : (2 : Int) ^ 31 ≤
        ↑(digitRunValue (List.takeWhile Char.isDigit (normalizedIdentifier t).data))
    · rw [if_pos (Or.inr hbig), if_pos hbig]
      rfl
    · have hcond : ¬(↑(digitRunValue
          (List.takeWhile Char.isDigit (normalizedIdentifier t).data)) < -(2 : Int) ^ 31 ∨
          (2 : Int) ^ 31 ≤ ↑(digitRunValue
            (List.takeWhile Char.isDigit (normalizedIdentifier t).data))) := by
        rintro (hlt | hge)
        · have hge0 := Int.ofNat_nonneg
            (digitRunValue (List.takeWhile Char.isDigit (normalizedIdentifier t).data))
          omega
        · exact hbig hge
      rw [if_neg hcond, if_neg hbig]
      rfl

/-- C7 as amended: for every error-free parse, firstInt and secondInt hold
the stoi reading of the normalized tokens, namely the value of the maximal
leading digit run when present and within int range, NULL_ID otherwise; a
trailing non-digit suffix is ignored rather than forcing NULL_ID, and
secondInt is NULL_ID when the designation has no colon. -/
theorem toProfile_ints_leading_digits (caps : PortCaps) (designation : String)
    (h : (toProfile caps designation).hasError = false) :
    (toProfile caps designation).firstInt =
      leadingDigitsValue (toProfile caps designation).firstName ∧
    (toProfile caps designation).secondInt =
      (if (toProfile caps designation).hasColon then
        leadingDigitsValue (toProfile caps designation).secondName
      else NULL_ID) := by
  by_cases hnil : designation.data = []
  · exfalso
    rw [show (toProfile caps designation).hasError = true by simp [toProfile, hnil]] at h
    exact Bool.noConfusion h
  · have hempty : designation.data.isEmpty = false := by simp [hnil]
    cases hsplit : splitAtFirstColon designation.data with
    | none =>
      have hprof : toProfile caps designation =
          { caps := caps
            hasColon := false
            firstName := normalizedIdentifier designation
            secondName := ""
            firstInt := identifierStrToInt (normalizedIdentifier designation)
            secondInt := NULL_ID } := by
        simp only [toProfile, hsplit]
        rw [if_neg (by simp [hempty])]
      rw [hprof]
      exact ⟨identifierStrToInt_normalized designation, by simp⟩
    | some ab =>
      obtain ⟨a, b⟩ := ab
      by_cases hok : a ≠ [] ∧ b ≠ [] ∧ ¬ b.contains ':'
      · have hprof : toProfile caps designation =
            { caps := caps
              hasColon := true
              firstName := normalizedIdentifier (String.mk a)
              secondName := normalizedIdentifier (String.mk b)
              firstInt := identifierStrToInt (normalizedIdentifier (String.mk a))
              secondInt := identifierStrToInt (normalizedIdentifier (String.mk b)) } := by
          simp only [toProfile, hsplit]
          rw [if_neg (by simp [hempty]), if_pos hok]
        rw [hprof]
        exact ⟨identifierStrToInt_normalized (String.mk a), by
          simp [identifierStrToInt_normalized (String.mk b)]⟩
      · exfalso
        have : (toProfile caps designation).hasError = true := by
          simp only [toProfile, hsplit]
          rw [if_neg (by simp [hempty]), if_neg hok]
        rw [this] at h
        exact Bool.noConfusion h

/-- Witness for the amended C7 on the token 12abc: the stored interpretation
is the leading digit run of the normalized token. -/
theorem toProfile_ints_leading_digits_witness :
    (toProfile 33 "12abc").firstInt =
      leadingDigitsValue (toProfile 33 "12abc").firstName ∧
    (toProfile 33 "12abc").secondInt =
      (if (toProfile 33 "12abc").hasColon then
        leadingDigitsValue (toProfile 33 "12abc").secondName
      else NULL_ID) :=
  toProfile_ints_leading_digits 33 "12abc" (by decide)

end AlsaClient

